import Mathlib

/-!
Verification of the health/metrics facade of kubernetes-event-exporter
(`pkg/metrics/metrics.go`), shallowly embedded in Lean 4.

Modelling choices:
* Timestamps and durations are `Int` nanoseconds, matching Go's
  `time.Time`/`time.Duration` arithmetic.  The Go zero `time.Time`
  (`IsZero`) is modelled as `Option.none`.
* The Prometheus default registry (`prometheus.DefaultRegisterer`) is a
  list of registered collectors, each carried as its exported name
  together with its current numeric value.  `promauto.New*` constructors
  register with `MustRegister` semantics: a duplicate name aborts the
  process (panic); that abort is the `CreateOutcome.panicked` constructor.
* `prometheus.Unregister` returns a `Bool` and never fails; unregistering
  an absent collector leaves the registry unchanged.
* Process-wide mutable state (`globalMetricsStore`, `lastEventProcessedTime`)
  is threaded explicitly as a `GlobalState` record.
-/

namespace KEE

/-- One registered collector in the default registry: exported name and
current sample value (counters start at 0). -/
abbrev Registry := List (String × Int)

/-- The exported names currently present in the registry. -/
def regNames (reg : Registry) : List String := reg.map Prod.fst

/-- `prometheus.Register` via `promauto`: fails (with the duplicate name)
iff the derived name is already registered, otherwise appends the fresh
collector with initial value 0. -/
def registerCollector (reg : Registry) (n : String) : Except String Registry :=
  if n ∈ regNames reg then Except.error n else Except.ok (reg ++ [(n, 0)])

/-- Sequential registration of a list of names, as the `promauto.New*`
calls inside `NewMetricsStore` perform it.  On the first duplicate the
error carries the duplicate name and the registry as already extended by
the earlier successful registrations. -/
def registerAll (reg : Registry) : List String → Except (String × Registry) Registry
  | [] => Except.ok reg
  | n :: ns =>
    match registerCollector reg n with
    | Except.error d => Except.error (d, reg)
    | Except.ok reg' => registerAll reg' ns

/-- Remove the first collector with the given name (no-op when absent):
the registry-side effect of `prometheus.Unregister`. -/
def eraseCollector : Registry → String → Registry
  | [], _ => []
  | e :: rest, n => if e.1 = n then rest else e :: eraseCollector rest n

/-- `prometheus.Unregister`: reports whether the collector was present and
returns the updated registry.  It never raises an error. -/
def unregisterCollector (reg : Registry) (n : String) : Bool × Registry :=
  if n ∈ regNames reg then (true, eraseCollector reg n) else (false, reg)

/-- `Counter.Inc` / `Gauge.Set`-style value update on a registered
collector (used by the event pipeline, e.g. `EventsProcessed.Inc()`). -/
def setCollectorValue : Registry → String → Int → Registry
  | [], _, _ => []
  | e :: rest, n, v => if e.1 = n then (n, v) :: rest else e :: setCollectorValue rest n v

/-- The `Store` struct of `metrics.go`: one handle per tracked signal.
Each handle is identified by the exported name it was registered under. -/
structure Store where
  EventsProcessed : String
  EventsDiscarded : String
  WatchErrors : String
  SendErrors : String
  BuildInfo : String
  KubeApiReadCacheHits : String
  KubeApiReadRequests : String
  LastProcessedEventTimestamp : String
deriving DecidableEq, Repr

/-- Process-wide mutable state of the package: the shared collection
point, `var globalMetricsStore *Store`, and `var lastEventProcessedTime
time.Time` (`none` = Go zero time). -/
structure GlobalState where
  registry : Registry
  globalMetricsStore : Option Store
  lastEventProcessedTime : Option Int
deriving DecidableEq, Repr

/-- Fresh-process state: empty registry, nil store pointer, zero time. -/
def initialState : GlobalState :=
  { registry := [], globalMetricsStore := none, lastEventProcessedTime := none }

/-- `5 * time.Minute` in nanoseconds. -/
def fiveMinutes : Int := 5 * 60 * 1000000000

/-- `isEventExporterReady` from `metrics.go`: not ready when
`globalMetricsStore == nil`; ready while `lastEventProcessedTime.IsZero()`;
otherwise ready iff `time.Since(lastEventProcessedTime) < 5*time.Minute`. -/
def isEventExporterReady (s : GlobalState) (now : Int) : Bool :=
  match s.globalMetricsStore with
  | none => false
  | some _ =>
    match s.lastEventProcessedTime with
    | none => true
    | some t => decide (now - t < fiveMinutes)

/-- `SetLastEventProcessedTime`: `lastEventProcessedTime = time.Now()`. -/
def SetLastEventProcessedTime (now : Int) (s : GlobalState) : GlobalState :=
  { s with lastEventProcessedTime := some now }

/-- The instrument names derived from a prefix, in the order the
`promauto.New*` calls in `NewMetricsStore` register them (Go struct
literal fields evaluate in source order). -/
def createNames (p : String) : List String :=
  [p ++ "build_info", p ++ "events_sent", p ++ "events_discarded",
   p ++ "watch_errors", p ++ "send_event_errors",
   p ++ "kube_api_read_cache_hits", p ++ "kube_api_read_cache_misses",
   p ++ "last_processed_event_timestamp"]

/-- The `Store` value `NewMetricsStore(p)` builds: each field holds the
instrument registered under `p ++` its fixed suffix. -/
def storeFor (p : String) : Store :=
  { BuildInfo := p ++ "build_info"
    EventsProcessed := p ++ "events_sent"
    EventsDiscarded := p ++ "events_discarded"
    WatchErrors := p ++ "watch_errors"
    SendErrors := p ++ "send_event_errors"
    KubeApiReadCacheHits := p ++ "kube_api_read_cache_hits"
    KubeApiReadRequests := p ++ "kube_api_read_cache_misses"
    LastProcessedEventTimestamp := p ++ "last_processed_event_timestamp" }

/-- Outcome of `NewMetricsStore`: either the new store with the updated
process state, or a process-fatal panic (from `promauto`'s
`MustRegister`) carrying the duplicate name and the state at the abort. -/
inductive CreateOutcome where
  | success (store : Store) (s : GlobalState)
  | panicked (dup : String) (s : GlobalState)
deriving DecidableEq, Repr

/-- The process state carried by either outcome. -/
def CreateOutcome.state : CreateOutcome → GlobalState
  | CreateOutcome.success _ s => s
  | CreateOutcome.panicked _ s => s

/-- Whether the outcome is a successful bundle creation. -/
def CreateOutcome.isSuccess : CreateOutcome → Bool
  | CreateOutcome.success _ _ => true
  | CreateOutcome.panicked _ _ => false

/-- Whether the outcome is a process-fatal panic. -/
def CreateOutcome.isPanic : CreateOutcome → Bool
  | CreateOutcome.success _ _ => false
  | CreateOutcome.panicked _ _ => true

/-- `NewMetricsStore(name_prefix)`: registers the eight instruments via
`promauto` (panicking on the first duplicate name); on success stores the
global reference (`globalMetricsStore = store`) and returns the store. -/
def NewMetricsStore (p : String) (s : GlobalState) : CreateOutcome :=
  match registerAll s.registry (createNames p) with
  | Except.error (d, reg') =>
      CreateOutcome.panicked d { s with registry := reg' }
  | Except.ok reg' =>
      CreateOutcome.success (storeFor p)
        { s with registry := reg', globalMetricsStore := some (storeFor p) }

/-- The registry-side effect of `DestroyMetricsStore(store)`: the eight
`prometheus.Unregister` calls, in the source's order. -/
def destroyNames (reg : Registry) (st : Store) : Registry :=
  let r1 := (unregisterCollector reg st.EventsProcessed).2
  let r2 := (unregisterCollector r1 st.EventsDiscarded).2
  let r3 := (unregisterCollector r2 st.WatchErrors).2
  let r4 := (unregisterCollector r3 st.SendErrors).2
  let r5 := (unregisterCollector r4 st.BuildInfo).2
  let r6 := (unregisterCollector r5 st.KubeApiReadCacheHits).2
  let r7 := (unregisterCollector r6 st.KubeApiReadRequests).2
  (unregisterCollector r7 st.LastProcessedEventTimestamp).2

/-- `DestroyMetricsStore(store)`: unregisters the eight instruments, in
the source's order, from the shared registry.  The final Go statement
`store = nil` reassigns only the local parameter, so the model leaves
`globalMetricsStore` (and `lastEventProcessedTime`) untouched. -/
def DestroyMetricsStore (s : GlobalState) (st : Store) : GlobalState :=
  { s with registry := destroyNames s.registry st }

/-- The healthy-probe handler registered in `Init` (the dash-healthy probe path):
unconditionally writes status 200 and the plain-text body `OK`. -/
def healthyHandler (_s : GlobalState) (_now : Int) : Nat × String :=
  (200, "OK")

/-- The ready-probe handler registered in `Init` (the dash-ready probe path):
status 200 with body `OK` when `isEventExporterReady`, else status 503
with an explanatory plain-text body. -/
def readyHandler (s : GlobalState) (now : Int) : Nat × String :=
  if isEventExporterReady s now then (200, "OK")
  else (503, "Not Ready - No events processed recently")

/-- The process state after a first successful `NewMetricsStore("p_")` on
a fresh process (used to instantiate the general theorems). -/
def createdState : GlobalState :=
  (NewMetricsStore "p_" initialState).state

/-! ### Helper lemmas -/

theorem append_right_inj (p a b : String) : p ++ a = p ++ b ↔ a = b := by
  constructor
  · intro h
    have h2 := congrArg String.data h
    simp [String.data_append] at h2
    exact String.ext h2
  · intro h; rw [h]

theorem regNames_append (r1 r2 : Registry) :
    regNames (r1 ++ r2) = regNames r1 ++ regNames r2 :=
  List.map_append _ _ _

theorem unregister_absent (reg : Registry) (n : String) (h : n ∉ regNames reg) :
    unregisterCollector reg n = (false, reg) := by
  simp [unregisterCollector, h]

theorem registerAll_ok_eq (ns : List String) (reg r : Registry)
    (h : registerAll reg ns = Except.ok r) :
    r = reg ++ ns.map (fun n => (n, 0)) := by
  induction ns generalizing reg with
  | nil =>
    simp [registerAll] at h
    simp [h]
  | cons a as ih =>
    by_cases hm : a ∈ regNames reg
    · simp [registerAll, registerCollector, hm] at h
    · simp only [registerAll, registerCollector, if_neg hm] at h
      have := ih (reg ++ [(a, 0)]) h
      simp [this]

theorem registerAll_disjoint (ns : List String) (reg : Registry)
    (hd : ns.Nodup) (h : ∀ n ∈ ns, n ∉ regNames reg) :
    registerAll reg ns = Except.ok (reg ++ ns.map (fun n => (n, 0))) := by
  induction ns generalizing reg with
  | nil => simp [registerAll]
  | cons a as ih =>
    have ha : a ∉ regNames reg := h a (List.mem_cons_self a as)
    simp only [registerAll, registerCollector, if_neg ha]
    rw [ih (reg ++ [(a, 0)]) (List.Nodup.of_cons hd)]
    · simp
    · intro n hn
      rw [regNames_append]
      simp only [List.mem_append, regNames, List.map_cons, List.map_nil]
      rintro (hcase | hcase)
      · exact h n (List.mem_cons_of_mem a hn) hcase
      · simp at hcase
        rw [hcase] at hn
        exact (List.nodup_cons.mp hd).1 hn

theorem createNames_nodup (p : String) : (createNames p).Nodup := by
  simp [createNames, append_right_inj]

theorem NewMetricsStore_success (p : String) (s : GlobalState)
    (h : ∀ n ∈ createNames p, n ∉ regNames s.registry) :
    NewMetricsStore p s =
      CreateOutcome.success (storeFor p)
        { s with registry := s.registry ++ (createNames p).map (fun n => (n, 0)),
                 globalMetricsStore := some (storeFor p) } := by
  unfold NewMetricsStore
  rw [registerAll_disjoint (createNames p) s.registry (createNames_nodup p) h]

theorem eraseCollector_append_right (r1 r2 : Registry) (n : String)
    (h : n ∉ regNames r1) :
    eraseCollector (r1 ++ r2) n = r1 ++ eraseCollector r2 n := by
  induction r1 with
  | nil => rfl
  | cons e r ih =>
    simp only [regNames, List.map_cons, List.mem_cons] at h
    push_neg at h
    have he : e.1 ≠ n := fun hc => h.1 hc.symm
    simp only [List.cons_append, eraseCollector, if_neg he]
    exact congrArg (fun l => e :: l) (ih h.2)

theorem unregister_snd_append (r1 r2 : Registry) (n : String)
    (h : n ∉ regNames r1) :
    (unregisterCollector (r1 ++ r2) n).2 = r1 ++ (unregisterCollector r2 n).2 := by
  by_cases hm : n ∈ regNames r2
  · have hm' : n ∈ regNames (r1 ++ r2) := by
      rw [regNames_append]; exact List.mem_append_right _ hm
    simp [unregisterCollector, hm', hm, eraseCollector_append_right _ _ _ h]
  · have hm' : n ∉ regNames (r1 ++ r2) := by
      rw [regNames_append]
      simp only [List.mem_append]
      rintro (hc | hc)
      · exact h hc
      · exact hm hc
    simp [unregisterCollector, hm', hm]

theorem destroyNames_absent (reg : Registry) (st : Store)
    (h1 : st.EventsProcessed ∉ regNames reg)
    (h2 : st.EventsDiscarded ∉ regNames reg)
    (h3 : st.WatchErrors ∉ regNames reg)
    (h4 : st.SendErrors ∉ regNames reg)
    (h5 : st.BuildInfo ∉ regNames reg)
    (h6 : st.KubeApiReadCacheHits ∉ regNames reg)
    (h7 : st.KubeApiReadRequests ∉ regNames reg)
    (h8 : st.LastProcessedEventTimestamp ∉ regNames reg) :
    destroyNames reg st = reg := by
  simp only [destroyNames]
  rw [unregister_absent _ _ h1, unregister_absent _ _ h2,
    unregister_absent _ _ h3, unregister_absent _ _ h4,
    unregister_absent _ _ h5, unregister_absent _ _ h6,
    unregister_absent _ _ h7, unregister_absent _ _ h8]

theorem destroyNames_append (r1 r2 : Registry) (st : Store)
    (h1 : st.EventsProcessed ∉ regNames r1)
    (h2 : st.EventsDiscarded ∉ regNames r1)
    (h3 : st.WatchErrors ∉ regNames r1)
    (h4 : st.SendErrors ∉ regNames r1)
    (h5 : st.BuildInfo ∉ regNames r1)
    (h6 : st.KubeApiReadCacheHits ∉ regNames r1)
    (h7 : st.KubeApiReadRequests ∉ regNames r1)
    (h8 : st.LastProcessedEventTimestamp ∉ regNames r1) :
    destroyNames (r1 ++ r2) st = r1 ++ destroyNames r2 st := by
  simp only [destroyNames]
  rw [unregister_snd_append _ _ _ h1, unregister_snd_append _ _ _ h2,
    unregister_snd_append _ _ _ h3, unregister_snd_append _ _ _ h4,
    unregister_snd_append _ _ _ h5, unregister_snd_append _ _ _ h6,
    unregister_snd_append _ _ _ h7, unregister_snd_append _ _ _ h8]

theorem eraseCollector_of_not_mem (reg : Registry) (n : String)
    (h : n ∉ regNames reg) : eraseCollector reg n = reg := by
  induction reg with
  | nil => rfl
  | cons e r ih =>
    simp only [regNames, List.map_cons, List.mem_cons] at h
    push_neg at h
    have he : e.1 ≠ n := fun hc => h.1 hc.symm
    simp only [eraseCollector, if_neg he]
    rw [ih h.2]

theorem unregister_snd (reg : Registry) (n : String) :
    (unregisterCollector reg n).2 = eraseCollector reg n := by
  by_cases hm : n ∈ regNames reg
  · simp [unregisterCollector, hm]
  · simp [unregisterCollector, hm, eraseCollector_of_not_mem reg n hm]

theorem destroy_entries (p : String) :
    destroyNames ((createNames p).map (fun n => (n, 0))) (storeFor p) = [] := by
  simp only [destroyNames, unregister_snd]
  simp [eraseCollector, createNames, storeFor, append_right_inj]

theorem NewMetricsStore_dup_head (p : String) (s : GlobalState)
    (h : p ++ "build_info" ∈ regNames s.registry) :
    NewMetricsStore p s = CreateOutcome.panicked (p ++ "build_info") s := by
  unfold NewMetricsStore
  have hr : registerAll s.registry (createNames p) =
      Except.error (p ++ "build_info", s.registry) := by
    simp [createNames, registerAll, registerCollector, h]
  rw [hr]

/-- Spec-side readiness decision function, written from the spec's §4.2
wording (for comparison with the source's `isEventExporterReady`): not
ready without an active bundle; ready while `lastProcessedTime` is unset;
otherwise ready iff `now - lastProcessedTime` is under five minutes. -/
def readinessSpecEvaluator (activeBundleExists : Bool)
    (lastProcessedTime : Option Int) (now : Int) : Bool :=
  if activeBundleExists then
    match lastProcessedTime with
    | none => true
    | some t => decide (now - t < fiveMinutes)
  else false

/-! ### Claim theorems -/

/-- C3: the Readiness Evaluator returns not-ready when no bundle is
active; otherwise it returns ready when `lastProcessedTime` is unset;
otherwise it returns ready iff `now - lastProcessedTime < 5` minutes —
the source's `isEventExporterReady` coincides with the spec-side decision
function on every state and probe time. -/
theorem c3_readiness_evaluator_matches_spec (s : GlobalState) (now : Int) :
    isEventExporterReady s now =
      readinessSpecEvaluator s.globalMetricsStore.isSome
        s.lastEventProcessedTime now := by
  cases hg : s.globalMetricsStore <;> cases hl : s.lastEventProcessedTime <;>
    simp [isEventExporterReady, readinessSpecEvaluator, hg, hl]

/-- C9: the healthy probe always answers status 200 with plain-text body
`OK`; the ready probe answers 200 `OK` exactly when the Readiness
Evaluator reports ready, and otherwise 503 with an explanatory plain-text
body (both handlers are total functions, so no fault is ever raised). -/
theorem c9_probe_endpoints (s : GlobalState) (now : Int) :
    healthyHandler s now = (200, "OK") ∧
    (readyHandler s now = (200, "OK") ↔ isEventExporterReady s now = true) ∧
    (readyHandler s now = (503, "Not Ready - No events processed recently") ↔
      isEventExporterReady s now = false) := by
  refine ⟨rfl, ?_, ?_⟩ <;>
    cases hr : isEventExporterReady s now <;> simp [readyHandler, hr]

/-- C10: `SetLastEventProcessedTime` mutates only the process-global
timestamp: the registry — hence every registered instrument and its
current value, including the exported last-processed-event-timestamp
gauge, which only the separate `setCollectorValue` operation updates —
and the active-bundle reference are left unchanged. -/
theorem c10_record_processed_frame (now : Int) (s : GlobalState) :
    (SetLastEventProcessedTime now s).registry = s.registry ∧
    (SetLastEventProcessedTime now s).globalMetricsStore =
      s.globalMetricsStore ∧
    (SetLastEventProcessedTime now s).lastEventProcessedTime = some now :=
  ⟨rfl, rfl, rfl⟩

/-- C6: `Destroy` on a bundle all of whose instruments are already absent
from the collection point is a no-op that returns normally (it is a total
function: no error, no panic, each unregistration of an absent instrument
leaves the registry unchanged) — so a second `Destroy` of the same,
already-destroyed bundle changes nothing. -/
theorem c6_destroy_idempotent (s : GlobalState) (st : Store)
    (h1 : st.EventsProcessed ∉ regNames s.registry)
    (h2 : st.EventsDiscarded ∉ regNames s.registry)
    (h3 : st.WatchErrors ∉ regNames s.registry)
    (h4 : st.SendErrors ∉ regNames s.registry)
    (h5 : st.BuildInfo ∉ regNames s.registry)
    (h6 : st.KubeApiReadCacheHits ∉ regNames s.registry)
    (h7 : st.KubeApiReadRequests ∉ regNames s.registry)
    (h8 : st.LastProcessedEventTimestamp ∉ regNames s.registry) :
    DestroyMetricsStore s st = s := by
  unfold DestroyMetricsStore
  rw [destroyNames_absent s.registry st h1 h2 h3 h4 h5 h6 h7 h8]

/-- Witness for C6 at a concrete input: destroying a bundle on a fresh
process, where none of its instruments are registered, is a no-op. -/
theorem c6_destroy_idempotent_witness :
    DestroyMetricsStore initialState (storeFor "w_") = initialState :=
  c6_destroy_idempotent initialState (storeFor "w_")
    (by decide) (by decide) (by decide) (by decide)
    (by decide) (by decide) (by decide) (by decide)

/-- C8: every successful `Create` records the new bundle as the
active-bundle reference (overwriting whatever was there) and leaves
`lastEventProcessedTime` — the only process-wide state besides the shared
collection point and that reference — unchanged. -/
theorem c8_create_frame (p : String) (s : GlobalState) (st : Store)
    (s' : GlobalState)
    (h : NewMetricsStore p s = CreateOutcome.success st s') :
    s'.globalMetricsStore = some st ∧
    s'.lastEventProcessedTime = s.lastEventProcessedTime := by
  unfold NewMetricsStore at h
  cases hr : registerAll s.registry (createNames p) with
  | error e =>
    rw [hr] at h
    obtain ⟨d, rg⟩ := e
    simp at h
  | ok reg' =>
    rw [hr] at h
    simp only [CreateOutcome.success.injEq] at h
    obtain ⟨hst, hs'⟩ := h
    subst hs'
    exact ⟨by rw [hst], rfl⟩

/-- Witness for C8 at a concrete input: the first `Create` on a fresh
process sets the active-bundle reference and keeps the zero timestamp. -/
theorem c8_create_frame_witness :
    createdState.globalMetricsStore = some (storeFor "p_") ∧
    createdState.lastEventProcessedTime =
      initialState.lastEventProcessedTime :=
  c8_create_frame "p_" initialState (storeFor "p_") createdState (by decide)

/-- C7: for every prefix, a successful `Create` allocates exactly one
instrument per tracked signal — the registry gains precisely the eight
derived entries — and each instrument's exported name is the prefix
concatenated with its fixed signal-specific suffix. -/
theorem c7_instrument_names (p : String) (s : GlobalState) (st : Store)
    (s' : GlobalState)
    (h : NewMetricsStore p s = CreateOutcome.success st s') :
    st.EventsProcessed = p ++ "events_sent" ∧
    st.EventsDiscarded = p ++ "events_discarded" ∧
    st.WatchErrors = p ++ "watch_errors" ∧
    st.SendErrors = p ++ "send_event_errors" ∧
    st.KubeApiReadCacheHits = p ++ "kube_api_read_cache_hits" ∧
    st.KubeApiReadRequests = p ++ "kube_api_read_cache_misses" ∧
    st.LastProcessedEventTimestamp = p ++ "last_processed_event_timestamp" ∧
    st.BuildInfo = p ++ "build_info" ∧
    s'.registry = s.registry ++ (createNames p).map (fun n => (n, 0)) := by
  unfold NewMetricsStore at h
  cases hr : registerAll s.registry (createNames p) with
  | error e =>
    rw [hr] at h
    obtain ⟨d, rg⟩ := e
    simp at h
  | ok reg' =>
    rw [hr] at h
    simp only [CreateOutcome.success.injEq] at h
    obtain ⟨hst, hs'⟩ := h
    subst hs'
    subst hst
    exact ⟨rfl, rfl, rfl, rfl, rfl, rfl, rfl, rfl,
      registerAll_ok_eq (createNames p) s.registry reg' hr⟩

/-- Witness for C7 at a concrete input: the first `Create("p_")` on a
fresh process yields the eight prefixed instrument names. -/
theorem c7_instrument_names_witness :
    (storeFor "p_").EventsProcessed = "p_" ++ "events_sent" ∧
    (storeFor "p_").EventsDiscarded = "p_" ++ "events_discarded" ∧
    (storeFor "p_").WatchErrors = "p_" ++ "watch_errors" ∧
    (storeFor "p_").SendErrors = "p_" ++ "send_event_errors" ∧
    (storeFor "p_").KubeApiReadCacheHits = "p_" ++ "kube_api_read_cache_hits" ∧
    (storeFor "p_").KubeApiReadRequests =
      "p_" ++ "kube_api_read_cache_misses" ∧
    (storeFor "p_").LastProcessedEventTimestamp =
      "p_" ++ "last_processed_event_timestamp" ∧
    (storeFor "p_").BuildInfo = "p_" ++ "build_info" ∧
    createdState.registry =
      initialState.registry ++ (createNames "p_").map (fun n => (n, 0)) :=
  c7_instrument_names "p_" initialState (storeFor "p_") createdState
    (by decide)

/-- C5: for every prefix none of whose derived names is already present
in the shared collection point, `Create(prefix)` immediately followed by
`Destroy` of the returned bundle leaves the collection point exactly in
its state before the `Create` (no leaked instrument registrations). -/
theorem c5_create_destroy_roundtrip (p : String) (s : GlobalState)
    (st : Store) (s' : GlobalState)
    (hsucc : NewMetricsStore p s = CreateOutcome.success st s')
    (h : ∀ n ∈ createNames p, n ∉ regNames s.registry) :
    (DestroyMetricsStore s' st).registry = s.registry := by
  rw [NewMetricsStore_success p s h] at hsucc
  simp only [CreateOutcome.success.injEq] at hsucc
  obtain ⟨hst, hs'⟩ := hsucc
  subst hs'
  subst hst
  simp only [DestroyMetricsStore]
  rw [destroyNames_append s.registry _ (storeFor p)
    (h (p ++ "events_sent") (by simp [createNames]))
    (h (p ++ "events_discarded") (by simp [createNames]))
    (h (p ++ "watch_errors") (by simp [createNames]))
    (h (p ++ "send_event_errors") (by simp [createNames]))
    (h (p ++ "build_info") (by simp [createNames]))
    (h (p ++ "kube_api_read_cache_hits") (by simp [createNames]))
    (h (p ++ "kube_api_read_cache_misses") (by simp [createNames]))
    (h (p ++ "last_processed_event_timestamp") (by simp [createNames]))]
  rw [destroy_entries p]
  simp

/-- Witness for C5 at a concrete input: `Create("p_")` on a fresh process
followed by `Destroy` of the returned bundle restores the empty
registry. -/
theorem c5_create_destroy_roundtrip_witness :
    (DestroyMetricsStore createdState (storeFor "p_")).registry =
      initialState.registry :=
  c5_create_destroy_roundtrip "p_" initialState (storeFor "p_") createdState
    (by decide) (by decide)

/-- Counterexample for C2 as stated: on a fresh process the first
`Create("p_")` succeeds, but the second `Create("p_")` (no intervening
`Destroy`) does not hand the caller any recoverable result — it is a
process-fatal panic from the duplicate-name registration
(`promauto.MustRegister`), contradicting "returned to the caller as a
recoverable result, never a process-fatal abort". -/
theorem c2_counterexample :
    (NewMetricsStore "p_" initialState).isSuccess = true ∧
    (NewMetricsStore "p_"
      ((NewMetricsStore "p_" initialState).state)).isPanic = true ∧
    (NewMetricsStore "p_"
      ((NewMetricsStore "p_" initialState).state)).isSuccess = false := by
  decide

/-- C2 (amended): for every prefix whose derived names are not yet
registered, calling `Create` twice with that prefix without an
intervening `Destroy` yields exactly one successful bundle, and the
second call fails loudly on the duplicate derived name — but as a
process-fatal panic raised by the registration helper, not as a
recoverable error value returned to the caller. -/
theorem c2_second_create_panics (p : String) (s : GlobalState)
    (h : ∀ n ∈ createNames p, n ∉ regNames s.registry) :
    (NewMetricsStore p s).isSuccess = true ∧
    (NewMetricsStore p ((NewMetricsStore p s).state)).isPanic = true := by
  rw [NewMetricsStore_success p s h]
  refine ⟨rfl, ?_⟩
  simp only [CreateOutcome.state]
  rw [NewMetricsStore_dup_head]
  · rfl
  · show p ++ "build_info" ∈
      regNames (s.registry ++ (createNames p).map (fun n => (n, 0)))
    rw [regNames_append]
    refine List.mem_append_right _ ?_
    simp [regNames, createNames]

/-- Witness for C2's amended theorem at a concrete input: the double
`Create("q_")` scenario on a fresh process. -/
theorem c2_second_create_panics_witness :
    (NewMetricsStore "q_" initialState).isSuccess = true ∧
    (NewMetricsStore "q_"
      ((NewMetricsStore "q_" initialState).state)).isPanic = true :=
  c2_second_create_panics "q_" initialState (by decide)

/-- C1 (code bug): `DestroyMetricsStore` never clears the active-bundle
reference — the Go statement `store = nil` reassigns only the local
parameter.  Concretely: after `Create("p_")` on a fresh process and
`Destroy` of the returned bundle, `globalMetricsStore` still points at
the destroyed bundle, the Readiness Evaluator still reports ready (zero
timestamp grace period), and the ready probe answers 200 `OK` instead of
the 503 Not-Ready the claim requires. -/
theorem c1_destroy_leaves_active_reference :
    (DestroyMetricsStore createdState (storeFor "p_")).globalMetricsStore =
      some (storeFor "p_") ∧
    isEventExporterReady
      (DestroyMetricsStore createdState (storeFor "p_")) 0 = true ∧
    readyHandler (DestroyMetricsStore createdState (storeFor "p_")) 0 =
      (200, "OK") := by
  decide

end KEE
